import Mathlib

/-!
Verification of the routing behavior in backend-tut (src/index.js).

The source file contains two servers:

1. A raw Node `http.createServer` server (lines 3-10): its request callback
   checks `req.url == "/"` and `req.url == '/about'` with two independent
   `if` statements (no `else`, no method check, no catch-all), calling
   `res.end(body)` in each branch.  We embed the callback as `serverCallback`,
   returning the list of bodies written by `res.end` in order.

2. An Express application (lines 14-42): `app.use(morgan("dev"))`,
   `app.set("view engine", "ejs")`, an anonymous logging middleware that
   always calls `next()`, and three `app.get` routes: "/" (renders the
   "index" view), "/about" ("About page"), "/contact" ("Contact page").
   The express library itself is not part of this repository, so the
   dispatch mechanism (middleware chain then first exact method+path match,
   otherwise not-found) is modelled from the spec; the registered
   middlewares and routes are taken from the source.
-/

/-- HTTP request methods (the source only ever registers GET handlers). -/
inductive Method
  | GET
  | POST
  | PUT
  | DELETE
deriving DecidableEq

/-- A parsed incoming request: the transport layer supplies method and url. -/
structure Request where
  method : Method
  url : String
deriving DecidableEq

/-- Embedding of the raw `http.createServer((req,res) => ...)` callback at
src/index.js lines 3-10.  Each `if(req.url == p){ res.end(body) }` branch is
independent (no `else`); the result lists the bodies written by `res.end`
in order.  The request method is never inspected by this callback. -/
def serverCallback (req : Request) : List String :=
  (if req.url = "/" then ["Hello World!"] else []) ++
  (if req.url = "/about" then ["About page"] else [])

/-- What a middleware does with a request: call `next()` to continue the
chain, or short-circuit by writing a response body. -/
inductive MWResult
  | next
  | respond (body : String)

/-- A middleware entry: a name (used only to record invocation order in
traces) and its action on a request. -/
structure Middleware where
  name : String
  run : Request → MWResult

/-- A route handler: a name (for traces) and the response body it writes. -/
structure Handler where
  name : String
  run : Request → String

/-- A registered route: method, path, handler (spec section 3). -/
structure Route where
  method : Method
  path : String
  handler : Handler

/-- An Express-style application: ordered middleware chain, ordered route
table, and the settings written by `app.set`. -/
structure App where
  middlewares : List Middleware
  routes : List Route
  settings : List (String × String)

/-- Modelled from the spec: express route matching is exact comparison of
the request method and url against the registered method and path
(spec section 4.1: "exact (method, path) matching"). -/
def routeMatches (req : Request) (r : Route) : Bool :=
  decide (req.method = r.method) && decide (req.url = r.path)

/-- Modelled from the spec: the first route whose method and path match
exactly (spec section 4.1: "find the first route whose method and path
match exactly"). -/
def findRoute (rs : List Route) (req : Request) : Option Route :=
  rs.find? (routeMatches req)

/-- Modelled from the spec: run the middleware chain in registration order;
each middleware may short-circuit by writing a response (spec section 4.1).
Returns the names of the middlewares invoked, in order, and the
short-circuit body if one was written. -/
def runMiddlewares : List Middleware → Request → List String × Option String
  | [], _ => ([], none)
  | m :: ms, req =>
    match m.run req with
    | MWResult.respond b => ([m.name], some b)
    | MWResult.next =>
      let rest := runMiddlewares ms req
      (m.name :: rest.1, rest.2)

/-- The outcome of dispatching one request. -/
inductive Outcome
  | ok (body : String)
  | notFound
deriving DecidableEq

/-- Modelled from the spec: `dispatch(request)` runs the middleware chain;
if no middleware short-circuited, the first exactly matching route's handler
is invoked; if no route matches the outcome is not-found (spec section 4.1).
Returns the invocation trace (middleware names, then the invoked handler's
name, in order) together with the outcome. -/
def dispatch (a : App) (req : Request) : List String × Outcome :=
  match runMiddlewares a.middlewares req with
  | (tr, some b) => (tr, Outcome.ok b)
  | (tr, none) =>
    match findRoute a.routes req with
    | some r => (tr ++ [r.handler.name], Outcome.ok (r.handler.run req))
    | none => (tr, Outcome.notFound)

/-- Modelled from the spec: `register` appends a route ("source behavior
registers duplicates silently and first match wins", spec section 4.1). -/
def App.register (a : App) (m : Method) (p : String) (h : Handler) : App :=
  { a with routes := a.routes ++ [Route.mk m p h] }

/-- `app.use(middlewareFn)`: appends a middleware to the chain. -/
def App.use (a : App) (m : Middleware) : App :=
  { a with middlewares := a.middlewares ++ [m] }

/-- `app.get(path, handler)`: registers a GET route. -/
def App.get (a : App) (p : String) (h : Handler) : App :=
  a.register Method.GET p h

/-- `app.set(key, value)`: records an application setting. -/
def App.set (a : App) (k v : String) : App :=
  { a with settings := (k, v) :: a.settings }

/-- `morgan("dev")` (src/index.js line 19): request logger; logging is
outside the response model, and it always passes control on. -/
def morganMW : Middleware :=
  Middleware.mk "morgan" (fun _ => MWResult.next)

/-- The anonymous middleware at src/index.js lines 21-28: logs a message and
the sum of two local variables, then `return next()`. -/
def sumLoggerMW : Middleware :=
  Middleware.mk "sumLogger" (fun _ => MWResult.next)

/-- The `app.get('/')` handler (src/index.js lines 30-33): logs and calls
`res.render("index")`; view rendering is an external collaborator (spec
section 6), so the produced body is the opaque rendering of "index". -/
def rootHandler : Handler :=
  Handler.mk "root" (fun _ => "render index")

/-- The `app.get('/about')` handler (src/index.js lines 35-37). -/
def aboutHandler : Handler :=
  Handler.mk "about" (fun _ => "About page")

/-- The `app.get('/contact')` handler (src/index.js lines 39-41). -/
def contactHandler : Handler :=
  Handler.mk "contact" (fun _ => "Contact page")

/-- The Express application built by src/index.js lines 17-41, in source
order: morgan, the view-engine setting, the sum-logging middleware, then
the three GET routes. -/
def expressApp : App :=
  (((((App.mk [] [] []).use morganMW).set "view engine" "ejs").use
    sumLoggerMW).get "/" rootHandler).get "/about" aboutHandler
    |>.get "/contact" contactHandler

/-- Processing a sequence of requests by the raw server: each request is
handled by `serverCallback`; the route table is fixed at startup and no
handler mutates any state read by a later request. -/
def serverProcess : List Request → List (List String)
  | [] => []
  | r :: rs => serverCallback r :: serverProcess rs

/-- C1 (counterexample): the claim says at least one response is written for
every request, but the raw server callback writes no response at all for
GET "/unknown": the write list is empty. -/
theorem serverCallback_unknown_writes_nothing :
    serverCallback (Request.mk Method.GET "/unknown") = [] := by
  decide

/-- C1 (amended): the raw server callback writes exactly one response when
the request url is "/" or "/about", and none otherwise; in particular no
second response is ever written for the same request. -/
theorem serverCallback_response_count (req : Request) :
    (serverCallback req).length =
      (if req.url = "/" ∨ req.url = "/about" then 1 else 0) := by
  unfold serverCallback
  by_cases h1 : req.url = "/"
  · rw [if_pos h1, if_neg (by rw [h1]; decide), if_pos (Or.inl h1)]; rfl
  · by_cases h2 : req.url = "/about"
    · rw [if_neg h1, if_pos h2, if_pos (Or.inr h2)]; rfl
    · rw [if_neg h1, if_neg h2, if_neg (by simp [h1, h2])]; rfl

/-- C2 (counterexample): the claim says dispatching GET "/unknown" yields
the not-found outcome, but the raw server callback produces no not-found
response: it writes nothing at all for that request. -/
theorem serverCallback_unknown_no_not_found :
    serverCallback (Request.mk Method.POST "/unknown") = [] ∧
      serverCallback (Request.mk Method.GET "/missing") = [] := by
  decide

/-- C2 (amended): for every request whose path matches no branch of the raw
server callback, no handler body is written and no response at all is
produced (there is no not-found write). -/
theorem serverCallback_unmatched (req : Request)
    (h1 : req.url ≠ "/") (h2 : req.url ≠ "/about") :
    serverCallback req = [] := by
  unfold serverCallback
  rw [if_neg h1, if_neg h2]
  rfl

/-- C2 (witness). -/
theorem serverCallback_unmatched_witness :
    serverCallback (Request.mk Method.GET "/nope") = [] :=
  serverCallback_unmatched (Request.mk Method.GET "/nope")
    (by decide) (by decide)

/-- C3 (counterexample): the claim says a handler is never invoked when the
request method differs from the registered method, but the raw server
callback serves the GET "/" route's body to a POST request for "/". -/
theorem serverCallback_post_root_served :
    serverCallback (Request.mk Method.POST "/") = ["Hello World!"] ∧
      Method.POST ≠ Method.GET := by
  constructor
  · decide
  · decide

/-- C3 (amended): the raw server callback dispatches on path only; the
request method is never inspected, so every request behaves exactly as the
GET request for the same url. -/
theorem serverCallback_ignores_method (req : Request) :
    serverCallback req = serverCallback (Request.mk Method.GET req.url) :=
  rfl

/-- C6: route matching in the raw server callback is case-sensitive
exact-string comparison on the path: whenever the request url differs from
a registered path in any character (including letter case only), that
branch's body is not written, and no wildcard or parameter binding occurs. -/
theorem serverCallback_case_sensitive (req : Request) :
    (req.url ≠ "/" → "Hello World!" ∉ serverCallback req) ∧
      (req.url ≠ "/about" → "About page" ∉ serverCallback req) := by
  unfold serverCallback
  constructor
  · intro h1
    rw [if_neg h1]
    by_cases h2 : req.url = "/about"
    · rw [if_pos h2]; decide
    · rw [if_neg h2]; decide
  · intro h2
    rw [if_neg h2]
    by_cases h1 : req.url = "/"
    · rw [if_pos h1]; decide
    · rw [if_neg h1]; decide

/-- C6 (witness): "/About" differs from "/about" only in letter case, and
the about branch is not taken. -/
theorem serverCallback_case_sensitive_witness :
    "About page" ∉ serverCallback (Request.mk Method.GET "/About") :=
  (serverCallback_case_sensitive (Request.mk Method.GET "/About")).2
    (by decide)

/-- C8: request handling by the raw server is stateless and idempotent:
the response to a request is independent of any earlier requests processed
(no state observable by later dispatches is mutated), and dispatching the
identical GET "/" request twice produces the same response both times. -/
theorem serverProcess_stateless :
    (∀ (pre : List Request) (r : Request),
        serverProcess (pre ++ [r]) = serverProcess pre ++ [serverCallback r]) ∧
      serverProcess [Request.mk Method.GET "/", Request.mk Method.GET "/"] =
        [["Hello World!"], ["Hello World!"]] := by
  constructor
  · intro pre r
    induction pre with
    | nil => rfl
    | cons x xs ih => simp [serverProcess, ih]
  · decide

/-- C9: dispatching a GET request for "/" to the raw server yields exactly
the response body "Hello World!". -/
theorem serverCallback_root_hello :
    serverCallback (Request.mk Method.GET "/") = ["Hello World!"] := by
  decide

/-- C4: for every route registered in the Express application, dispatching
a request whose method and path match that route invokes exactly that
route's handler and no other handler: the trace lists the two middlewares
and then only that handler, and the outcome is that handler's body. -/
theorem dispatch_matching_route (r : Route) (hr : r ∈ expressApp.routes) :
    dispatch expressApp (Request.mk r.method r.path) =
      (["morgan", "sumLogger", r.handler.name],
        Outcome.ok (r.handler.run (Request.mk r.method r.path))) := by
  have hroutes : expressApp.routes =
      [Route.mk Method.GET "/" rootHandler,
        Route.mk Method.GET "/about" aboutHandler,
        Route.mk Method.GET "/contact" contactHandler] := rfl
  rw [hroutes] at hr
  rcases hr with _ | ⟨_, (_ | ⟨_, (_ | ⟨_, hr⟩)⟩)⟩
  · rfl
  · rfl
  · rfl
  · cases hr

/-- C4 (witness). -/
theorem dispatch_matching_route_witness :
    dispatch expressApp (Request.mk Method.GET "/about") =
      (["morgan", "sumLogger", "about"], Outcome.ok "About page") := by
  have h := dispatch_matching_route (Route.mk Method.GET "/about" aboutHandler)
    (show _ ∈ expressApp.routes from
      List.mem_cons_of_mem _ (List.mem_cons_self _ _))
  exact h

/-- C5: given middlewares [A, B] and a route matching the request with
handler H, the invocation order is A, then B, then H; if A short-circuits
by writing a response only A runs, and if B short-circuits only A and B
run. -/
theorem dispatch_middleware_order (A B : Middleware) (H : Handler)
    (req : Request) :
    (dispatch (App.mk [A, B] [Route.mk req.method req.url H] []) req).1 =
      (match A.run req with
        | MWResult.respond _ => [A.name]
        | MWResult.next =>
          match B.run req with
          | MWResult.respond _ => [A.name, B.name]
          | MWResult.next => [A.name, B.name, H.name]) := by
  have hm : routeMatches req (Route.mk req.method req.url H) = true := by
    simp [routeMatches]
  cases hA : A.run req with
  | respond b => simp [dispatch, runMiddlewares, hA]
  | next =>
    cases hB : B.run req with
    | respond b => simp [dispatch, runMiddlewares, hA, hB]
    | next =>
      simp [dispatch, runMiddlewares, findRoute, hA, hB,
        List.find?_cons_of_pos _ hm]

/-- C7 (counterexample): the claim says registering an identical
(method, path) pair twice fails with a ConfigurationError, but registration
never fails: after registering GET "/" twice the route table simply holds
both routes, and dispatch serves the first-registered handler. -/
theorem register_duplicate_no_failure :
    (((App.mk [] [] []).register Method.GET "/" rootHandler).register
          Method.GET "/" aboutHandler).routes =
        [Route.mk Method.GET "/" rootHandler,
          Route.mk Method.GET "/" aboutHandler] ∧
      (dispatch
          (((App.mk [] [] []).register Method.GET "/" rootHandler).register
            Method.GET "/" aboutHandler)
          (Request.mk Method.GET "/")).2 = Outcome.ok "render index" := by
  constructor
  · rfl
  · rfl

/-- C7 (amended): registering an identical (method, path) pair a second
time succeeds silently: both routes are kept in the table, and dispatching
a matching request invokes the first-registered handler (first match
wins). -/
theorem register_duplicate_first_wins (m : Method) (p : String)
    (g k : Handler) (req : Request) (hm : req.method = m)
    (hp : req.url = p) :
    (((App.mk [] [] []).register m p g).register m p k).routes.length = 2 ∧
      dispatch (((App.mk [] [] []).register m p g).register m p k) req =
        ([g.name], Outcome.ok (g.run req)) := by
  subst hm
  subst hp
  refine ⟨rfl, ?_⟩
  have hmt : routeMatches req (Route.mk req.method req.url g) = true := by
    simp [routeMatches]
  simp [dispatch, runMiddlewares, findRoute, App.register,
    List.find?_cons_of_pos _ hmt]

/-- C7 (witness). -/
theorem register_duplicate_first_wins_witness :
    (((App.mk [] [] []).register Method.GET "/about" aboutHandler).register
          Method.GET "/about" contactHandler).routes.length = 2 ∧
      dispatch
          (((App.mk [] [] []).register Method.GET "/about" aboutHandler).register
            Method.GET "/about" contactHandler)
          (Request.mk Method.GET "/about") =
        (["about"], Outcome.ok "About page") := by
  have h := register_duplicate_first_wins Method.GET "/about" aboutHandler
    contactHandler (Request.mk Method.GET "/about") rfl rfl
  exact h

/-- C10: the Express application registers a GET "/contact" route, and
dispatching GET "/contact" runs the two middlewares and the contact
handler, yielding the body "Contact page". -/
theorem dispatch_contact_page :
    dispatch expressApp (Request.mk Method.GET "/contact") =
      (["morgan", "sumLogger", "contact"], Outcome.ok "Contact page") := by
  rfl
